import Mathlib

/-!
# Verification of the copert-cli tool-orchestration core

A shallow embedding of the agentic core of the `copert` coding-assistant CLI:

* `src/copert/tools/file_ops/multiedit.py` — the atomic multi-edit engine;
* `src/copert/agents/graph.py` — the agent/tool dispatch loop
  (`agent_node`, `approval_tool_node`, `should_continue`);
* `src/copert/utils/approval.py` — the `ApprovalManager`;
* `src/copert/tools/task/delegate.py` — the sub-agent delegation tool;
* `src/copert/tools/__init__.py` — the tool registry subsets;
* `src/copert/cli/session.py` — the interactive session loop.

Strings are modelled as `List Char`; the Python string operations used by
the code (`in`, `count`, `replace`) are reimplemented below with Python's
non-overlapping, left-to-right semantics.
-/

namespace Copert

/-- Character sequences standing for Python `str` values. -/
abbrev Chars := List Char

/-- Python `pat in s`: substring membership (empty pattern is always found). -/
def pyFind (pat : Chars) : Chars → Bool
  | [] => pat.isEmpty
  | c :: rest => pat.isPrefixOf (c :: rest) || pyFind pat rest

/-- Fuelled worker for `pyCount`: non-overlapping left-to-right count of a
non-empty pattern (after matching, scanning resumes past the match). -/
def pyCountF (pat : Chars) : Nat → Chars → Nat
  | 0, _ => 0
  | _ + 1, [] => 0
  | fuel + 1, c :: rest =>
    if pat.isPrefixOf (c :: rest) then
      1 + pyCountF pat fuel (List.drop (pat.length - 1) rest)
    else
      pyCountF pat fuel rest

/-- Python `s.count(pat)`: non-overlapping occurrence count
(`s.count("") = len(s) + 1`). -/
def pyCount (pat s : Chars) : Nat :=
  if pat.isEmpty then s.length + 1 else pyCountF pat s.length s

/-- Fuelled worker for `pyReplaceAll` on a non-empty pattern. -/
def pyReplaceAllF (pat rep : Chars) : Nat → Chars → Chars
  | 0, s => s
  | _ + 1, [] => []
  | fuel + 1, c :: rest =>
    if pat.isPrefixOf (c :: rest) then
      rep ++ pyReplaceAllF pat rep fuel (List.drop (pat.length - 1) rest)
    else
      c :: pyReplaceAllF pat rep fuel rest

/-- Python `s.replace(pat, rep)`: replace every non-overlapping occurrence
(empty pattern interleaves `rep` around every character). -/
def pyReplaceAll (pat rep s : Chars) : Chars :=
  if pat.isEmpty then rep ++ s.flatMap (fun c => c :: rep)
  else pyReplaceAllF pat rep s.length s

/-- Worker for `pyReplace1` on a non-empty pattern: replace the first
occurrence only. -/
def pyReplace1Go (pat rep : Chars) : Chars → Chars
  | [] => []
  | c :: rest =>
    if pat.isPrefixOf (c :: rest) then
      rep ++ List.drop (pat.length - 1) rest
    else
      c :: pyReplace1Go pat rep rest

/-- Python `s.replace(pat, rep, 1)`: replace the first occurrence. -/
def pyReplace1 (pat rep s : Chars) : Chars :=
  if pat.isEmpty then rep ++ s else pyReplace1Go pat rep s

/-! ## The atomic multi-edit engine (`multiedit.py`) -/

/-- One edit operation, as parsed by `multiedit` from an edit dict
(`old_string`, `new_string`, optional `replace_all` defaulting to false). -/
structure EditOp where
  old_string : Chars
  new_string : Chars
  replace_all : Bool
deriving DecidableEq

/-- Failure of the sequential edit loop (`multiedit.py` lines 133-152);
the index is the 1-based operation number used in the error messages. -/
inductive EditError where
  | notFound (idx : Nat)
  | ambiguous (idx : Nat) (count : Nat)
deriving DecidableEq

/-- The sequential in-memory edit loop of `multiedit` (lines 133-152):
each operation is checked against, and applied to, the accumulated content
produced by the previous operation; `i` is the 0-based index of the first
operation of the remaining list. -/
def applyEdits : Chars → List EditOp → Nat → Except EditError Chars
  | content, [], _ => .ok content
  | content, e :: rest, i =>
    if pyFind e.old_string content then
      if !e.replace_all && decide (pyCount e.old_string content > 1) then
        .error (.ambiguous (i + 1) (pyCount e.old_string content))
      else
        applyEdits
          (if e.replace_all then pyReplaceAll e.old_string e.new_string content
           else pyReplace1 e.old_string e.new_string content)
          rest (i + 1)
    else
      .error (.notFound (i + 1))

/-- The eager validation pass of `multiedit` (lines 96-118): returns the
1-based index of the first operation whose `old_string` equals its
`new_string`, if any. -/
def validateEdits : List EditOp → Nat → Option Nat
  | [], _ => none
  | e :: rest, i =>
    if e.old_string = e.new_string then some (i + 1) else validateEdits rest (i + 1)

/-- Error messages of the edit loop, verbatim from `multiedit.py`. -/
def renderEditError : EditError → String
  | .notFound i =>
    "Error: Edit " ++ toString i ++
      " failed - old_string not found in file (remember edits are applied sequentially)"
  | .ambiguous i c =>
    "Error: Edit " ++ toString i ++ " failed - old_string appears " ++ toString c ++
      " times in file. Use replace_all=true to replace all occurrences, or provide more context to make it unique."

/-- `len(content.split("\n"))`, the line statistic of the success message. -/
def lineCount (s : Chars) : Nat := s.count '\n' + 1

/-- Outcome of one `multiedit` call: the returned message and the content
of the target file on storage after the call returns. -/
structure MultiEditOutcome where
  message : String
  file : Chars
deriving DecidableEq

/-- The `multiedit` tool body (lines 91-170) on an existing UTF-8 file whose
current on-storage content is `original`: validate the edit list, run the
sequential loop in memory, and only on full success write the final content
back to storage in a single write.  On any failure the message is the error
string and storage still holds `original`. -/
def multieditRun (filePath : String) (original : Chars) (edits : List EditOp) :
    MultiEditOutcome :=
  if edits.isEmpty then
    ⟨"Error: No edits provided. Must provide at least one edit operation.", original⟩
  else
    match validateEdits edits 0 with
    | some i =>
      ⟨"Error: Edit " ++ toString i ++ " has identical old_string and new_string", original⟩
    | none =>
      match applyEdits original edits 0 with
      | .error e => ⟨renderEditError e, original⟩
      | .ok newContent =>
        ⟨"Successfully applied " ++ toString edits.length ++ " edits to " ++ filePath ++
            " (" ++ toString (lineCount newContent) ++ " lines total)", newContent⟩

/-! ## Tool calls, the registry and the dispatcher (`graph.py`, `approval.py`) -/

/-- A tool call emitted by the model: name, argument mapping (opaque type
`Args`), and the id used to correlate the answering ToolResult. -/
structure ToolCall (Args : Type) where
  name : String
  args : Args
  id : String

/-- A ToolResult message (`ToolMessage` in the source): content, tool name
and the id of the call it answers. -/
structure ToolMsg where
  content : String
  name : String
  tool_call_id : String
deriving DecidableEq

/-- A registry entry: a named executable capability.  `run` consumes the
arguments and the filesystem state `σ` and returns either the result string
or a raised-exception string, plus the possibly mutated state. -/
structure Tool (Args σ : Type) where
  name : String
  run : Args → σ → Except String String × σ

/-- `tools_by_name = {tool.name: tool for tool in tools}` followed by
`.get(name)`: a dict built in order, so a later duplicate name wins. -/
def lookupTool {Args σ : Type} (tools : List (Tool Args σ)) (name : String) :
    Option (Tool Args σ) :=
  tools.reverse.find? (fun t => t.name == name)

/-- The tool names gated by the `ApprovalManager`
(`approval.py` line 70). -/
def destructiveToolNames : List String := ["write_file", "edit_file", "multiedit"]

/-- One record of `ApprovalManager.approval_history`. -/
structure ApprovalRecord where
  tool : String
  file : String
  approved : Bool
  edit_count : Option Nat
deriving DecidableEq

/-- The mutable part of the `ApprovalManager`: the auto-approve flag and the
append-only approval history. -/
structure ApprovalState where
  autoApprove : Bool
  history : List ApprovalRecord
deriving DecidableEq

/-- Observable events of one dispatch, used to state temporal ordering:
a decision being recorded, and an executor being invoked. -/
inductive DispatchEvent where
  | decided (tool : String) (approved : Bool)
  | executed (tool : String)
deriving DecidableEq

/-- The history record appended by the per-tool approval helpers
(`_approve_write` / `_approve_edit` / `_approve_multiedit`); only the
multiedit record carries an edit count. -/
def approvalRecordFor (toolName file : String) (editCount : Nat)
    (approved : Bool) : ApprovalRecord :=
  if toolName = "multiedit" then ⟨toolName, file, approved, some editCount⟩
  else ⟨toolName, file, approved, none⟩

/-- `ApprovalManager.request_approval` (`approval.py` lines 55-81): under
auto-approve, return True touching nothing; for a non-destructive tool
name, return True touching nothing; otherwise show the preview, block on
the y/n prompt (the eventual answer is `userAnswer`), append the decision
to the history and return the answer.  The event list records the decision
being appended. -/
def requestApproval (st : ApprovalState) (toolName argsFile : String)
    (editCount : Nat) (userAnswer : Bool) :
    Bool × ApprovalState × List DispatchEvent :=
  if st.autoApprove then (true, st, [])
  else if toolName ∈ destructiveToolNames then
    (userAnswer,
     { st with
        history := st.history ++
          [approvalRecordFor toolName argsFile editCount userAnswer] },
     [.decided toolName userAnswer])
  else (true, st, [])

/-- Result of dispatching one tool call: the produced ToolResult, the
approval state, the filesystem state, and the ordered event trace. -/
structure DispatchResult (σ : Type) where
  msg : ToolMsg
  approvals : ApprovalState
  state : σ
  trace : List DispatchEvent

/-- One iteration of `approval_tool_node` (`graph.py` lines 91-137):
request approval first; if approved, look the name up in the active
registry subset and invoke the tool, catching a raised exception as
`"Error: ..."` content and an absent name as a tool-not-found content;
if rejected, produce the rejection content without executing. -/
def dispatchOne {Args σ : Type} (tools : List (Tool Args σ))
    (argsFile : Args → String) (editCount : Args → Nat) (answer : Bool)
    (tc : ToolCall Args) (st : ApprovalState) (s : σ) : DispatchResult σ :=
  let ra := requestApproval st tc.name (argsFile tc.args) (editCount tc.args) answer
  let res : String × σ × List DispatchEvent :=
    if ra.1 then
      match lookupTool tools tc.name with
      | some t =>
        match (t.run tc.args s).1 with
        | .ok r =>
          (r, (t.run tc.args s).2, ra.2.2 ++ [.executed tc.name])
        | .error e =>
          ("Error: " ++ e, (t.run tc.args s).2, ra.2.2 ++ [.executed tc.name])
      | none =>
        ("Error: Tool \x27" ++ tc.name ++ "\x27 not found", s, ra.2.2)
    else
      ("Operation rejected by user", s, ra.2.2)
  ⟨⟨res.1, tc.name, tc.id⟩, ra.2.1, res.2.1, res.2.2⟩

/-- The loop of `approval_tool_node` over the tool calls of one Assistant
message, in the order they appear; `answers i` is the eventual y/n answer
to the i-th prompt, and the approval and filesystem states are threaded
sequentially.  Returns the ToolResult list and the final states. -/
def approvalToolNode {Args σ : Type} (tools : List (Tool Args σ))
    (argsFile : Args → String) (editCount : Args → Nat) (answers : Nat → Bool) :
    List (ToolCall Args) → Nat → ApprovalState → σ →
      List ToolMsg × ApprovalState × σ
  | [], _, st, s => ([], st, s)
  | tc :: rest, i, st, s =>
    let r := dispatchOne tools argsFile editCount (answers i) tc st s
    let out := approvalToolNode tools argsFile editCount answers rest (i + 1)
      r.approvals r.state
    (r.msg :: out.1, out.2)

/-- `ApprovalManager.get_approval_stats` (`approval.py` lines 283-296):
the approved, rejected and total counts over the history. -/
def getApprovalStats (history : List ApprovalRecord) : Nat × Nat × Nat :=
  ((history.filter (fun r => r.approved)).length,
   (history.filter (fun r => !r.approved)).length,
   history.length)

/-! ## Conversation messages and the orchestrator loop (`graph.py`, `session.py`) -/

/-- A conversation message: the tagged union over System / User (Human) /
Assistant (AI) / ToolResult used by the LangChain message types. -/
inductive Message (Args : Type) where
  | system (content : String)
  | user (content : String)
  | assistant (content : String) (toolCalls : List (ToolCall Args))
  | toolResult (m : ToolMsg)

/-- `isinstance(msg, SystemMessage)`. -/
def isSystem {Args : Type} : Message Args → Bool
  | .system _ => true
  | _ => false

/-- `msg.content` — every message type carries content text. -/
def msgContent {Args : Type} : Message Args → String
  | .system c => c
  | .user c => c
  | .assistant c _ => c
  | .toolResult m => m.content

/-- The message preparation of `agent_node` (`graph.py` lines 59-63): if no
System message is anywhere in the state, prepend one with the configured
system prompt; the prepended message is what the model call observes, it is
not appended to the persistent state. -/
def prepareMessages {Args : Type} (systemPrompt : String)
    (msgs : List (Message Args)) : List (Message Args) :=
  if msgs.any isSystem then msgs else .system systemPrompt :: msgs

/-- The model capability (external collaborator): one Assistant response,
text and/or tool calls, for a prepared message sequence. -/
structure ModelResponse (Args : Type) where
  content : String
  toolCalls : List (ToolCall Args)

/-- The compiled agent graph loop (`create_agent_graph` wiring plus
LangGraph recursion limiting): call the model on the prepared messages and
append its Assistant message; with no tool calls the turn ends
(`should_continue` routes to END); otherwise append one ToolResult per
call (produced by the tool node `dispatch`) and loop; exhausting the
iteration budget raises `GraphRecursionError` instead of looping on. -/
def runGraph {Args : Type} (model : List (Message Args) → ModelResponse Args)
    (dispatch : List (ToolCall Args) → List ToolMsg) (systemPrompt : String) :
    Nat → List (Message Args) → Except String (List (Message Args))
  | 0, _ => .error "GraphRecursionError"
  | fuel + 1, msgs =>
    let resp := model (prepareMessages systemPrompt msgs)
    let msgs1 := msgs ++ [.assistant resp.content resp.toolCalls]
    if resp.toolCalls.isEmpty then .ok msgs1
    else
      runGraph model dispatch systemPrompt fuel
        (msgs1 ++ (dispatch resp.toolCalls).map .toolResult)

/-- Conversation states reachable by the interactive session
(`CopertSession`): it starts from the empty history (`self.messages = []`,
and `/clear` resets to it) and only ever appends the user message and the
streamed Assistant / ToolResult messages produced by the graph nodes. -/
inductive SessionReachable (Args : Type) : List (Message Args) → Prop
  | init : SessionReachable Args []
  | userMsg (h : List (Message Args)) (t : String) :
      SessionReachable Args h → SessionReachable Args (h ++ [.user t])
  | assistantMsg (h : List (Message Args)) (c : String)
      (tcs : List (ToolCall Args)) :
      SessionReachable Args h → SessionReachable Args (h ++ [.assistant c tcs])
  | toolMsgs (h : List (Message Args)) (ms : List ToolMsg) :
      SessionReachable Args h → SessionReachable Args (h ++ ms.map .toolResult)

/-! ## The tool registry subsets (`tools/__init__.py`) and sub-agent
delegation (`delegate.py`) -/

/-- The names of `ALL_TOOLS`, the main agent registry. -/
def ALL_TOOL_NAMES : List String :=
  ["read_file", "write_file", "edit_file", "ls", "multiedit", "grep", "glob",
   "bash", "todowrite", "webfetch", "websearch", "task", "init"]

/-- The names of `READ_ONLY_TOOLS` (general-purpose sub-agent). -/
def READ_ONLY_TOOL_NAMES : List String :=
  ["read_file", "ls", "grep", "glob", "webfetch", "websearch"]

/-- The names of `CODE_WRITER_TOOLS` (code-writer sub-agent). -/
def CODE_WRITER_TOOL_NAMES : List String :=
  ["read_file", "write_file", "edit_file", "multiedit", "ls", "grep", "glob"]

/-- The names of `PROJECT_INIT_TOOLS` (project-init sub-agent). -/
def PROJECT_INIT_TOOL_NAMES : List String :=
  ["read_file", "write_file", "ls", "grep", "glob", "write_copert_md",
   "read_copert_md"]

/-- `valid_types` in `delegate.py` line 93. -/
def validSubagentTypes : List String :=
  ["general-purpose", "code-writer", "project-init"]

/-- The class-to-subset mapping of `delegate.py` lines 98-106. -/
def subagentToolNames : String → List String
  | "general-purpose" => READ_ONLY_TOOL_NAMES
  | "code-writer" => CODE_WRITER_TOOL_NAMES
  | "project-init" => PROJECT_INIT_TOOL_NAMES
  | _ => []

/-- Modelled from the spec: the plain tool node that sub-agent graphs
dispatch through.  Sub-agent graphs are created without an approval
manager (`delegate.py` lines 112-115), so `create_agent_graph` binds the
library `ToolNode` over the restricted subset (`graph.py` line 143); that
node's body is not part of this repository.  Per the spec's dispatcher
contract, it resolves the tool name against the active registry subset;
if absent, it produces a ToolResult whose content signals a tool-not-found
failure with no execution; otherwise it executes the tool, catching a
raised exception as failure content. -/
def toolNode {Args σ : Type} (tools : List (Tool Args σ)) (tc : ToolCall Args)
    (s : σ) : ToolMsg × σ × List DispatchEvent :=
  match lookupTool tools tc.name with
  | some t =>
    match (t.run tc.args s).1 with
    | .ok r =>
      (⟨r, tc.name, tc.id⟩, (t.run tc.args s).2, [.executed tc.name])
    | .error e =>
      (⟨"Error: " ++ e, tc.name, tc.id⟩, (t.run tc.args s).2,
        [.executed tc.name])
  | none =>
    (⟨"Error: Tool \x27" ++ tc.name ++ "\x27 not found", tc.name, tc.id⟩, s, [])

/-- The iteration ceiling passed by `delegate.py` line 124
(`config={"recursion_limit": 50}`). -/
def taskCeiling : Nat := 50

/-- The `recursion_limit` configured for the nested sub-agent invocation in
`delegate.py`: explicitly set to 50. -/
def taskRecursionLimitConfig : Option Nat := some taskCeiling

/-- The `recursion_limit` configured for the top-level stream call in
`CopertSession.process_message` (`session.py` line 168): the call passes no
config at all, so no explicit ceiling is set there. -/
def sessionRecursionLimitConfig : Option Nat := none

/-- The report extraction of `delegate.py` lines 128-135: scan the nested
run's messages from the last backwards and return the first non-empty
content; with none, a fixed error string. -/
def finalReport {Args : Type} (msgs : List (Message Args)) : String :=
  match msgs.reverse.find? (fun m => !(msgContent m == "")) with
  | some m => msgContent m
  | none => "Error: Sub-agent did not return a final report"

/-- The diagnostic returned on `GraphRecursionError`
(`delegate.py` lines 137-151), verbatim. -/
def ceilingDiagnostic : String :=
  "Error: Sub-agent exceeded maximum iterations (50 steps).\n\nThis means the task was too broad or the agent kept using tools without finishing.\n\nTo fix this, try:\n- Break the task into smaller, more specific sub-tasks\n- Be more specific about what files/directories to search\n- Limit the scope of analysis (e.g., \x27search only in src/\x27 instead of \x27scan entire codebase\x27)\n- Do targeted searches yourself with specific grep/glob calls\n\nExample of a better prompt:\n  \x27Use grep to find files containing VectorStore class, then read the top 3 results\x27\nInstead of:\n  \x27Scan the codebase and analyze everything\x27"

/-- The error for an invalid sub-agent class (`delegate.py` line 95). -/
def invalidSubagentMsg (t : String) : String :=
  "Error: Invalid subagent_type \x27" ++ t ++
    "\x27. Valid types: general-purpose, code-writer, project-init"

/-- The `task` tool body (`delegate.py` lines 92-151): validate the class
against the fixed enumeration, run a fresh nested graph seeded with exactly
one User message holding the instruction under the explicit ceiling of 50,
and fold the outcome into a single report string — the final report on
normal termination, the fixed diagnostic on a recursion-limit abort.
`promptOf` selects the class-specific system prompt (an opaque constant of
`llm/prompts.py`). -/
def taskRun {Args : Type} (model : List (Message Args) → ModelResponse Args)
    (dispatch : List (ToolCall Args) → List ToolMsg)
    (promptOf : String → String) (_description instruction subagentType : String) :
    String :=
  if subagentType ∈ validSubagentTypes then
    match runGraph model dispatch (promptOf subagentType) taskCeiling
        [.user instruction] with
    | .ok msgs => finalReport msgs
    | .error _ => ceilingDiagnostic
  else invalidSubagentMsg subagentType

/-- A concrete model oracle that always requests a tool call (used for
ceiling witnesses). -/
def loopingModel : List (Message Unit) → ModelResponse Unit :=
  fun _ => ⟨"", [⟨"grep", (), "x"⟩]⟩

/-- A concrete model oracle that immediately answers with an empty
Assistant message. -/
def emptyModel : List (Message Unit) → ModelResponse Unit :=
  fun _ => ⟨"", []⟩

/-- A concrete model oracle that immediately answers with the text
`"done"`. -/
def doneModel : List (Message Unit) → ModelResponse Unit :=
  fun _ => ⟨"done", []⟩

/-- A tool-node stub producing no results, for runs that never reach it. -/
def noDispatch : List (ToolCall Unit) → List ToolMsg := fun _ => []

/-! ## Theorems -/

/-- C1.  Multi-edit atomicity: on a well-formed request (every operation has
`old_string ≠ new_string`, the data-model invariant), if the sequential loop
fails because some operation's match-text is absent from the accumulated
content, `multiedit` returns exactly the error message naming that
operation's 1-based index and storage keeps the pre-call content; and in
general storage ends up either byte-identical to the pre-call content or
equal to the fully-edited content, never an intermediate state. -/
theorem multiedit_atomicity (fp : String) (content : Chars) (edits : List EditOp) :
    (∀ i, validateEdits edits 0 = none →
        applyEdits content edits 0 = Except.error (EditError.notFound i) →
        multieditRun fp content edits =
          ⟨renderEditError (EditError.notFound i), content⟩)
    ∧ ((multieditRun fp content edits).file = content ∨
        applyEdits content edits 0 = Except.ok (multieditRun fp content edits).file) := by
  constructor
  · intro i hv he
    have hne : edits ≠ [] := by
      intro h
      subst h
      simp [applyEdits] at he
    unfold multieditRun
    rw [if_neg (by simp [List.isEmpty_iff, hne])]
    rw [hv, he]
  · unfold multieditRun
    split
    · exact Or.inl rfl
    · split
      · exact Or.inl rfl
      · split
        · exact Or.inl rfl
        · next heq => exact Or.inr heq

/-- Witness for C1 at a concrete input: editing the file content `"ab"`
with the single operation `"zz" → "y"` fails with the index-1 not-found
message and leaves storage holding `"ab"`. -/
theorem multiedit_atomicity_witness :
    validateEdits [⟨"zz".data, "y".data, false⟩] 0 = none
    ∧ applyEdits ("ab".data) [⟨"zz".data, "y".data, false⟩] 0 =
        Except.error (EditError.notFound 1)
    ∧ multieditRun "f.txt" ("ab".data) [⟨"zz".data, "y".data, false⟩] =
        ⟨renderEditError (EditError.notFound 1), "ab".data⟩ :=
  ⟨by decide, rfl,
    (multiedit_atomicity "f.txt" ("ab".data) [⟨"zz".data, "y".data, false⟩]).1 1
      (by decide) rfl⟩

/-- C2 counterexample.  The spec's scenario `[(A→B), (C→D)]` with C absent
from the original but present after `A→B` does NOT fail: with original
content `"hello"`, A = `"hello"`, B = C = `"world"`, D = `"x"`, the
premises of the scenario hold, yet the request succeeds, applies both
edits, and rewrites storage to `"x"` — it does not fail by operation
index 2 and storage is not byte-identical to the pre-call content. -/
theorem multiedit_sequential_scenario_counterexample :
    pyFind ("world".data) ("hello".data) = false
    ∧ pyFind ("world".data)
        (pyReplace1 ("hello".data) ("world".data) ("hello".data)) = true
    ∧ multieditRun "f.txt" ("hello".data)
        [⟨"hello".data, "world".data, false⟩, ⟨"world".data, "x".data, false⟩] =
      ⟨"Successfully applied 2 edits to f.txt (1 lines total)", "x".data⟩
    ∧ ("x".data : Chars) ≠ "hello".data := by decide

/-- C2 (amended).  For a two-operation request `[(A→B), (C→D)]` (both with
`replace_all` false, well-formed) where the first operation applies (A
present exactly once) and C is present in the original content only in
text the first operation destroys — i.e. C is absent from the content
produced by `A→B` — the request fails by operation index 2 and storage
keeps the pre-call content. -/
theorem multiedit_sequential_failure (fp : String) (original A B C D : Chars)
    (hAB : A ≠ B) (hCD : C ≠ D)
    (hA : pyFind A original = true)
    (hA1 : pyCount A original = 1)
    (hC : pyFind C (pyReplace1 A B original) = false) :
    multieditRun fp original [⟨A, B, false⟩, ⟨C, D, false⟩] =
      ⟨renderEditError (EditError.notFound 2), original⟩ := by
  unfold multieditRun
  rw [if_neg (by simp)]
  have hv : validateEdits [⟨A, B, false⟩, ⟨C, D, false⟩] 0 = none := by
    simp [validateEdits, hAB, hCD]
  rw [hv]
  have ha : applyEdits original [⟨A, B, false⟩, ⟨C, D, false⟩] 0 =
      Except.error (EditError.notFound 2) := by
    simp [applyEdits, hA, hA1, hC]
  rw [ha]

/-- Witness for C2 (amended) at a concrete input: original `"foo"`,
operations `[("foo"→"bar"), ("foo"→"baz")]`; the second operation's
match-text survives only in the original, so the request fails by index 2
and storage keeps `"foo"`. -/
theorem multiedit_sequential_failure_witness :
    multieditRun "f.txt" ("foo".data)
        [⟨"foo".data, "bar".data, false⟩, ⟨"foo".data, "baz".data, false⟩] =
      ⟨renderEditError (EditError.notFound 2), "foo".data⟩ :=
  multiedit_sequential_failure "f.txt" ("foo".data) ("foo".data) ("bar".data)
    ("foo".data) ("baz".data) (by decide) (by decide) (by decide) (by decide)
    (by decide)

/-- Helper: every branch of `dispatchOne` yields a ToolResult carrying the
name and id of the dispatched call. -/
theorem dispatchOne_msg {Args σ : Type} (tools : List (Tool Args σ))
    (argsFile : Args → String) (editCount : Args → Nat) (answer : Bool)
    (tc : ToolCall Args) (st : ApprovalState) (s : σ) :
    (dispatchOne tools argsFile editCount answer tc st s).msg.tool_call_id = tc.id
    ∧ (dispatchOne tools argsFile editCount answer tc st s).msg.name = tc.name :=
  ⟨rfl, rfl⟩

/-- Helper: the ids of the ToolResults produced by `approvalToolNode` are,
in order, the ids of the dispatched tool calls. -/
theorem approvalToolNode_ids {Args σ : Type} (tools : List (Tool Args σ))
    (argsFile : Args → String) (editCount : Args → Nat) (answers : Nat → Bool)
    (calls : List (ToolCall Args)) (i : Nat) (st : ApprovalState) (s : σ) :
    ((approvalToolNode tools argsFile editCount answers calls i st s).1).map
        (fun m => m.tool_call_id) = calls.map (fun tc => tc.id) := by
  induction calls generalizing i st s with
  | nil => rfl
  | cons tc rest ih =>
    simp only [approvalToolNode, List.map_cons, List.cons.injEq]
    exact ⟨(dispatchOne_msg tools argsFile editCount (answers i) tc st s).1,
      ih (i + 1) _ _⟩

/-- C3.  One dispatch of an Assistant message with N tool calls produces
exactly N ToolResults; their ids, read in output order, equal the call ids
read in input order (hence are a permutation of them), reflecting the
sequential in-order processing of the calls. -/
theorem dispatcher_coverage {Args σ : Type} (tools : List (Tool Args σ))
    (argsFile : Args → String) (editCount : Args → Nat) (answers : Nat → Bool)
    (calls : List (ToolCall Args)) (st : ApprovalState) (s : σ) :
    ((approvalToolNode tools argsFile editCount answers calls 0 st s).1).length
        = calls.length
    ∧ ((approvalToolNode tools argsFile editCount answers calls 0 st s).1).map
        (fun m => m.tool_call_id) = calls.map (fun tc => tc.id)
    ∧ (((approvalToolNode tools argsFile editCount answers calls 0 st s).1).map
        (fun m => m.tool_call_id)).Perm (calls.map (fun tc => tc.id)) := by
  have h := approvalToolNode_ids tools argsFile editCount answers calls 0 st s
  refine ⟨?_, h, h ▸ List.Perm.refl _⟩
  have := congrArg List.length h
  simpa using this

/-- C4.  Dispatch never propagates a fault.  Provided the active registry
contains the destructive tools (true of the default `ALL_TOOLS` registry),
a call whose name resolves to nothing yields the deterministic
tool-not-found content; a call whose approved execution raises an
exception `e` yields the caught `"Error: " ++ e` content; and in every
case the dispatcher returns normally with exactly one ToolResult
correlated to the call. -/
theorem dispatch_no_fault {Args σ : Type} (tools : List (Tool Args σ))
    (argsFile : Args → String) (editCount : Args → Nat) (answer : Bool)
    (tc : ToolCall Args) (st : ApprovalState) (s : σ)
    (hreg : ∀ n ∈ destructiveToolNames, (lookupTool tools n).isSome) :
    (lookupTool tools tc.name = none →
      (dispatchOne tools argsFile editCount answer tc st s).msg.content =
        "Error: Tool \x27" ++ tc.name ++ "\x27 not found")
    ∧ (∀ t e,
        (requestApproval st tc.name (argsFile tc.args) (editCount tc.args)
          answer).1 = true →
        lookupTool tools tc.name = some t →
        (t.run tc.args s).1 = Except.error e →
        (dispatchOne tools argsFile editCount answer tc st s).msg.content =
          "Error: " ++ e)
    ∧ (dispatchOne tools argsFile editCount answer tc st s).msg.tool_call_id
        = tc.id
    ∧ (dispatchOne tools argsFile editCount answer tc st s).msg.name
        = tc.name := by
  refine ⟨?_, ?_, (dispatchOne_msg _ _ _ _ _ _ _).1,
    (dispatchOne_msg _ _ _ _ _ _ _).2⟩
  · intro hnone
    have hnd : tc.name ∉ destructiveToolNames := by
      intro hmem
      have := hreg tc.name hmem
      rw [hnone] at this
      simp at this
    have hap1 : (requestApproval st tc.name (argsFile tc.args)
        (editCount tc.args) answer).1 = true := by
      unfold requestApproval
      by_cases h : st.autoApprove = true
      · rw [if_pos h]
      · rw [if_neg h, if_neg hnd]
    simp only [dispatchOne, hap1, hnone, if_true]
  · intro t e hap hsome hrun
    simp only [dispatchOne, hap, hsome, hrun, if_true]

/-- A concrete registry for witnesses: the three destructive tools plus a
tool whose execution raises. -/
def witnessTools : List (Tool Unit Nat) :=
  [⟨"write_file", fun _ n => (Except.ok "written", n + 1)⟩,
   ⟨"edit_file", fun _ n => (Except.ok "edited", n + 1)⟩,
   ⟨"multiedit", fun _ n => (Except.ok "multiedited", n + 1)⟩,
   ⟨"boom", fun _ n => (Except.error "boom failed", n)⟩]

/-- Witness for C4 at concrete inputs: dispatching the unregistered name
`"delete_everything"` yields the deterministic tool-not-found content, and
dispatching the registered tool `"boom"`, whose execution raises
`"boom failed"`, yields the caught error content. -/
theorem dispatch_no_fault_witness :
    (dispatchOne witnessTools (fun _ => "f") (fun _ => 0) true
        ⟨"delete_everything", (), "id1"⟩ ⟨false, []⟩ 7).msg.content =
      "Error: Tool \x27delete_everything\x27 not found"
    ∧ (dispatchOne witnessTools (fun _ => "f") (fun _ => 0) true
        ⟨"boom", (), "id2"⟩ ⟨false, []⟩ 7).msg.content =
      "Error: " ++ "boom failed" :=
  ⟨(dispatch_no_fault witnessTools (fun _ => "f") (fun _ => 0) true
      ⟨"delete_everything", (), "id1"⟩ ⟨false, []⟩ 7 (by decide)).1 rfl,
   (dispatch_no_fault witnessTools (fun _ => "f") (fun _ => 0) true
      ⟨"boom", (), "id2"⟩ ⟨false, []⟩ 7 (by decide)).2.1
      ⟨"boom", fun _ n => (Except.error "boom failed", n)⟩ "boom failed"
      rfl rfl rfl⟩

/-- C5.  For a destructive tool call dispatched with auto-approve disabled:
the first event of the dispatch is the approval decision (so the executor
is never invoked before the decision is appended), the decision is
appended to the approval history, and on rejection the executor never
runs, the filesystem state is untouched, and the ToolResult content is the
user-rejection message. -/
theorem approval_gating {Args σ : Type} (tools : List (Tool Args σ))
    (argsFile : Args → String) (editCount : Args → Nat) (answer : Bool)
    (tc : ToolCall Args) (st : ApprovalState) (s : σ)
    (hd : tc.name ∈ destructiveToolNames) (hauto : st.autoApprove = false) :
    (dispatchOne tools argsFile editCount answer tc st s).trace.head? =
      some (DispatchEvent.decided tc.name answer)
    ∧ (dispatchOne tools argsFile editCount answer tc st s).approvals.history =
        st.history ++
          [approvalRecordFor tc.name (argsFile tc.args) (editCount tc.args) answer]
    ∧ (answer = false →
        (dispatchOne tools argsFile editCount answer tc st s).state = s
        ∧ (dispatchOne tools argsFile editCount answer tc st s).msg.content =
            "Operation rejected by user"
        ∧ DispatchEvent.executed tc.name ∉
            (dispatchOne tools argsFile editCount answer tc st s).trace) := by
  have hra : requestApproval st tc.name (argsFile tc.args) (editCount tc.args)
      answer =
      (answer,
       ⟨st.autoApprove,
        st.history ++
          [approvalRecordFor tc.name (argsFile tc.args) (editCount tc.args)
            answer]⟩,
       [DispatchEvent.decided tc.name answer]) := by
    unfold requestApproval
    rw [if_neg (by simp [hauto]), if_pos hd]
  refine ⟨?_, ?_, ?_⟩
  · simp only [dispatchOne, hra]
    cases answer
    · rfl
    · rw [if_pos rfl]
      split
      · split <;> rfl
      · rfl
  · simp only [dispatchOne, hra]
  · intro hrej
    subst hrej
    simp only [dispatchOne, hra]
    refine ⟨rfl, rfl, ?_⟩
    simp

/-- Witness for C5 at concrete inputs: rejecting a `write_file` call with
auto-approve disabled leaves the filesystem state `0` untouched, yields the
rejection content, and the decision event comes first. -/
theorem approval_gating_witness :
    (dispatchOne witnessTools (fun _ => "a.txt") (fun _ => 0) false
        ⟨"write_file", (), "id1"⟩ ⟨false, []⟩ 0).state = 0
    ∧ (dispatchOne witnessTools (fun _ => "a.txt") (fun _ => 0) false
        ⟨"write_file", (), "id1"⟩ ⟨false, []⟩ 0).msg.content =
      "Operation rejected by user"
    ∧ (dispatchOne witnessTools (fun _ => "a.txt") (fun _ => 0) false
        ⟨"write_file", (), "id1"⟩ ⟨false, []⟩ 0).trace.head? =
      some (DispatchEvent.decided "write_file" false) := by
  have h := approval_gating witnessTools (fun _ => "a.txt") (fun _ => 0) false
    ⟨"write_file", (), "id1"⟩ ⟨false, []⟩ 0 (by decide) rfl
  exact ⟨(h.2.2 rfl).1, (h.2.2 rfl).2.1, h.1⟩

/-- C10.  With auto-approve enabled, `request_approval` returns True for
every tool name and argument mapping without prompting (the answer is
irrelevant) and without appending to the approval history, so
`get_approval_stats` is unchanged. -/
theorem auto_approve_frame (st : ApprovalState) (toolName argsFile : String)
    (editCount : Nat) (answer : Bool) (hauto : st.autoApprove = true) :
    requestApproval st toolName argsFile editCount answer = (true, st, [])
    ∧ getApprovalStats
        (requestApproval st toolName argsFile editCount answer).2.1.history =
      getApprovalStats st.history := by
  have h : requestApproval st toolName argsFile editCount answer =
      (true, st, []) := by
    unfold requestApproval
    rw [if_pos hauto]
  exact ⟨h, by rw [h]⟩

/-- Witness for C10 at a concrete input: with auto-approve on and a
non-empty history, approving a destructive `multiedit` call changes
neither the outcome (True), the history, nor the statistics. -/
theorem auto_approve_frame_witness :
    requestApproval ⟨true, [⟨"write_file", "x", true, none⟩]⟩ "multiedit" "y" 3
        false =
      (true, ⟨true, [⟨"write_file", "x", true, none⟩]⟩, [])
    ∧ getApprovalStats
        (requestApproval ⟨true, [⟨"write_file", "x", true, none⟩]⟩ "multiedit"
          "y" 3 false).2.1.history =
      getApprovalStats [⟨"write_file", "x", true, none⟩] :=
  auto_approve_frame ⟨true, [⟨"write_file", "x", true, none⟩]⟩ "multiedit" "y" 3
    false rfl

/-- C6 counterexample.  The claim says top-level and nested runs are
bounded by the same fixed maximum; but the top-level session stream sets no
recursion limit at all while the nested delegation explicitly sets 50, so
the two configured ceilings differ. -/
theorem shared_ceiling_counterexample :
    sessionRecursionLimitConfig ≠ taskRecursionLimitConfig
    ∧ taskRecursionLimitConfig = some 50
    ∧ sessionRecursionLimitConfig = none := by decide

/-- C6 (amended).  The nested sub-agent invocation is explicitly bounded by
the fixed ceiling 50 while the top-level session sets no explicit ceiling
(the library default applies there); a graph whose model always requests
tool calls aborts with the recursion-exceeded failure once its budget is
exhausted, rather than looping forever. -/
theorem iteration_ceiling {Args : Type}
    (model : List (Message Args) → ModelResponse Args)
    (dispatch : List (ToolCall Args) → List ToolMsg) (sp : String)
    (hloop : ∀ msgs, ((model msgs).toolCalls).isEmpty = false) :
    taskRecursionLimitConfig = some 50
    ∧ sessionRecursionLimitConfig = none
    ∧ ∀ fuel msgs,
        runGraph model dispatch sp fuel msgs =
          Except.error "GraphRecursionError" := by
  refine ⟨rfl, rfl, ?_⟩
  intro fuel
  induction fuel with
  | zero => intro msgs; rfl
  | succ n ih =>
    intro msgs
    simp only [runGraph, hloop, if_false]
    exact ih _

/-- Witness for C6 (amended) at concrete inputs: a model that always
requests the tool `"grep"` exhausts a budget of 3 and aborts with the
recursion failure. -/
theorem iteration_ceiling_witness :
    runGraph loopingModel noDispatch "SP" 3 [] =
      Except.error "GraphRecursionError"
    ∧ taskRecursionLimitConfig = some 50
    ∧ sessionRecursionLimitConfig = none := by
  have h := iteration_ceiling loopingModel noDispatch "SP" (fun _ => rfl)
  exact ⟨h.2.2 3 [], h.1, h.2.1⟩

/-- Helper: a name that is on none of the registry entries resolves to
nothing. -/
theorem lookupTool_eq_none {Args σ : Type} (tools : List (Tool Args σ))
    (n : String) (h : n ∉ tools.map Tool.name) : lookupTool tools n = none := by
  unfold lookupTool
  rw [List.find?_eq_none]
  intro t ht hbeq
  exact h (List.mem_map.2 ⟨t, List.mem_reverse.1 ht, by simpa using hbeq⟩)

/-- C7 counterexample.  The claim says every sub-agent class's subset is a
strict subset of the full registry; but the project-init subset contains
`write_copert_md` (and `read_copert_md`), which is not in `ALL_TOOLS`, so
that subset is not contained in the full registry at all. -/
theorem subagent_subset_counterexample :
    "write_copert_md" ∈ subagentToolNames "project-init"
    ∧ "write_copert_md" ∉ ALL_TOOL_NAMES
    ∧ ¬ (∀ cls ∈ validSubagentTypes,
          ∀ n ∈ subagentToolNames cls, n ∈ ALL_TOOL_NAMES) := by decide

/-- C7 (amended).  No sub-agent class's tool subset contains the delegation
tool `task`, so no sub-agent can delegate; the general-purpose and
code-writer subsets are strict subsets of the full registry (project-init's
is not: it carries the two dedicated COPERT.md tools); and a sub-agent
invoking any tool name outside its declared subset — the destructive
tools from a read-only class included — resolves as the tool-not-found
failure with no execution and no state mutation, never as a successful
execution. -/
theorem subagent_tool_isolation {Args σ : Type} (tools : List (Tool Args σ))
    (tc : ToolCall Args) (s : σ)
    (hsub : tc.name ∉ tools.map Tool.name) :
    (∀ cls ∈ validSubagentTypes, "task" ∉ subagentToolNames cls)
    ∧ (∀ n ∈ READ_ONLY_TOOL_NAMES, n ∈ ALL_TOOL_NAMES)
    ∧ (∀ n ∈ CODE_WRITER_TOOL_NAMES, n ∈ ALL_TOOL_NAMES)
    ∧ "task" ∈ ALL_TOOL_NAMES
    ∧ (toolNode tools tc s).1.content =
        "Error: Tool \x27" ++ tc.name ++ "\x27 not found"
    ∧ (toolNode tools tc s).2.1 = s
    ∧ DispatchEvent.executed tc.name ∉ (toolNode tools tc s).2.2 := by
  refine ⟨by decide, by decide, by decide, by decide, ?_, ?_, ?_⟩ <;>
    simp [toolNode, lookupTool_eq_none tools tc.name hsub]

/-- Witness for C7 (amended) at concrete inputs: against the read-only
sub-agent subset, invoking the destructive outside name `"write_file"`
resolves as tool-not-found, mutating nothing and executing nothing. -/
theorem subagent_tool_isolation_witness :
    (toolNode
        (READ_ONLY_TOOL_NAMES.map
          (fun n => (⟨n, fun _ s => (Except.ok "r", s)⟩ : Tool Unit Nat)))
        ⟨"write_file", (), "id3"⟩ 0).1.content =
      "Error: Tool \x27write_file\x27 not found"
    ∧ (toolNode
        (READ_ONLY_TOOL_NAMES.map
          (fun n => (⟨n, fun _ s => (Except.ok "r", s)⟩ : Tool Unit Nat)))
        ⟨"write_file", (), "id3"⟩ 0).2.1 = 0
    ∧ DispatchEvent.executed "write_file" ∉
        (toolNode
          (READ_ONLY_TOOL_NAMES.map
            (fun n => (⟨n, fun _ s => (Except.ok "r", s)⟩ : Tool Unit Nat)))
          ⟨"write_file", (), "id3"⟩ 0).2.2 :=
  ⟨(subagent_tool_isolation
      (READ_ONLY_TOOL_NAMES.map
        (fun n => (⟨n, fun _ s => (Except.ok "r", s)⟩ : Tool Unit Nat)))
      ⟨"write_file", (), "id3"⟩ 0 (by decide)).2.2.2.2.1,
   (subagent_tool_isolation
      (READ_ONLY_TOOL_NAMES.map
        (fun n => (⟨n, fun _ s => (Except.ok "r", s)⟩ : Tool Unit Nat)))
      ⟨"write_file", (), "id3"⟩ 0 (by decide)).2.2.2.2.2.1,
   (subagent_tool_isolation
      (READ_ONLY_TOOL_NAMES.map
        (fun n => (⟨n, fun _ s => (Except.ok "r", s)⟩ : Tool Unit Nat)))
      ⟨"write_file", (), "id3"⟩ 0 (by decide)).2.2.2.2.2.2⟩

/-- C8 counterexample.  The claim says a normally terminating delegation
returns the text content of the nested run's final Assistant message; with
a model answering an empty Assistant message, the nested run terminates
normally with a final Assistant whose content is `""`, yet `task` returns
the seed User prompt `"p"` (the most recent message with non-empty
content), not that final Assistant content. -/
theorem delegate_report_counterexample :
    runGraph emptyModel noDispatch "SP" taskCeiling [.user "p"] =
      Except.ok [.user "p", .assistant "" []]
    ∧ taskRun emptyModel noDispatch (fun _ => "SP")
        "d" "p" "general-purpose" = "p"
    ∧ ("p" : String) ≠ "" :=
  ⟨rfl, rfl, by decide⟩

/-- C8 (amended).  A delegated run terminating normally whose final
Assistant message has non-empty text makes `task` return exactly that text
as the report; a run aborted by the recursion ceiling makes `task` return
the fixed diagnostic string rather than a propagated fault. -/
theorem delegate_report {Args : Type}
    (model : List (Message Args) → ModelResponse Args)
    (dispatch : List (ToolCall Args) → List ToolMsg) (promptOf : String → String)
    (d instruction t : String) (ht : t ∈ validSubagentTypes) :
    (∀ (pre : List (Message Args)) (c : String) (tcs : List (ToolCall Args)),
        runGraph model dispatch (promptOf t) taskCeiling [.user instruction] =
          Except.ok (pre ++ [.assistant c tcs]) →
        c ≠ "" →
        taskRun model dispatch promptOf d instruction t = c)
    ∧ (runGraph model dispatch (promptOf t) taskCeiling [.user instruction] =
          Except.error "GraphRecursionError" →
        taskRun model dispatch promptOf d instruction t = ceilingDiagnostic) := by
  constructor
  · intro pre c tcs h hne
    unfold taskRun
    rw [if_pos ht, h]
    show finalReport (pre ++ [.assistant c tcs]) = c
    unfold finalReport
    have hrev : (pre ++ [Message.assistant c tcs]).reverse =
        Message.assistant c tcs :: pre.reverse := by simp
    rw [hrev, List.find?_cons_of_pos _ (by simpa [msgContent] using hne)]
    rfl
  · intro h
    unfold taskRun
    rw [if_pos ht, h]

/-- Witness for C8 (amended) at concrete inputs: a model that immediately
answers `"done"` makes the delegation report `"done"`, and a model that
always requests tools makes it the ceiling diagnostic. -/
theorem delegate_report_witness :
    taskRun doneModel noDispatch (fun _ => "SP") "d" "p" "general-purpose" =
      "done"
    ∧ taskRun loopingModel noDispatch (fun _ => "SP") "d" "p" "code-writer" =
      ceilingDiagnostic :=
  ⟨(delegate_report doneModel noDispatch
      (fun _ => "SP") "d" "p" "general-purpose" (by decide)).1
      [Message.user "p"] "done" [] rfl (by decide),
   (delegate_report loopingModel noDispatch
      (fun _ => "SP") "d" "p" "code-writer" (by decide)).2 rfl⟩

/-- C9.  Every conversation reachable by the session loop contains no
System message at any position other than the first (indeed none at all:
the states only accumulate User, Assistant and ToolResult messages), and
on each model call — the first in particular — `agent_node` inserts the
System message automatically, so the model observes a sequence whose first
element is the System message. -/
theorem system_message_first {Args : Type} (systemPrompt : String)
    (msgs : List (Message Args)) (hr : SessionReachable Args msgs) :
    (∀ i (hi : i < msgs.length), isSystem (msgs.get ⟨i, hi⟩) = true → i = 0)
    ∧ (prepareMessages systemPrompt msgs).head? =
        some (.system systemPrompt) := by
  have hnosys : ∀ m ∈ msgs, isSystem m = false := by
    induction hr with
    | init => intro m hm; simp at hm
    | userMsg h t _ ih =>
      intro m hm
      rcases List.mem_append.1 hm with h1 | h1
      · exact ih m h1
      · simp at h1; subst h1; rfl
    | assistantMsg h c tcs _ ih =>
      intro m hm
      rcases List.mem_append.1 hm with h1 | h1
      · exact ih m h1
      · simp at h1; subst h1; rfl
    | toolMsgs h ms _ ih =>
      intro m hm
      rcases List.mem_append.1 hm with h1 | h1
      · exact ih m h1
      · rcases List.mem_map.1 h1 with ⟨tm, _, rfl⟩
        rfl
  constructor
  · intro i hi hsys
    have := hnosys _ (List.get_mem msgs i hi)
    rw [this] at hsys
    exact absurd hsys (by simp)
  · have hany : msgs.any isSystem = false := by
      rw [List.any_eq_false]
      intro m hm
      simp [hnosys m hm]
    unfold prepareMessages
    rw [hany]
    rfl

/-- Witness for C9 at a concrete input: from the reachable one-message
conversation `[user "hi"]`, the prepared sequence the model observes starts
with the System message. -/
theorem system_message_first_witness :
    (prepareMessages "SP" [(Message.user "hi" : Message Unit)]).head? =
      some (Message.system "SP") :=
  (system_message_first "SP" [(Message.user "hi" : Message Unit)]
    (SessionReachable.userMsg [] "hi" SessionReachable.init)).2

end Copert
